import Mathlib

set_option maxRecDepth 8000

/- Shallow embedding of src/main.py (PersistentSearchAgent): a goal-directed
iterative search agent.  The external collaborators (the LLM planning service,
the DuckDuckGo search provider, the crawl4ai fetcher) are modelled as oracle
functions collected in `Env`; everything else is translated directly from the
source.  Machine integers of the source are Python ints, modelled as `Int`. -/

-- Boolean prefix test on character lists.
def listIsPrefixOf : List Char → List Char → Bool
  | [], _ => true
  | _ :: _, [] => false
  | c :: cs, d :: ds => c == d && listIsPrefixOf cs ds

-- Python `needle in hay` on strings (substring test).
def strContains (hay needle : String) : Bool :=
  (List.range (hay.toList.length + 1)).any
    (fun i => listIsPrefixOf needle.toList (hay.toList.drop i))

-- ASCII lowercase/uppercase (all strings in the source are ASCII).
def charLower (c : Char) : Char :=
  if 'A' ≤ c && c ≤ 'Z' then Char.ofNat (c.toNat + 32) else c

def charUpper (c : Char) : Char :=
  if 'a' ≤ c && c ≤ 'z' then Char.ofNat (c.toNat - 32) else c

def strLower (s : String) : String := String.mk (s.toList.map charLower)

def strUpper (s : String) : String := String.mk (s.toList.map charUpper)

-- Python s.strip().
def strTrim (s : String) : String :=
  String.mk (((s.toList.dropWhile Char.isWhitespace).reverse.dropWhile
    Char.isWhitespace).reverse)

-- Python s[:n] on strings (first n characters).
def strTake (s : String) (n : Nat) : String := String.mk (s.toList.take n)

-- Python sep.join(l).
def strIntercalate (sep : String) : List String → String
  | [] => ""
  | [x] => x
  | x :: y :: xs => x ++ sep ++ strIntercalate sep (y :: xs)

-- Concatenation of a list of strings.
def strJoin (l : List String) : String := l.foldl (fun a b => a ++ b) ""

-- Python `s.split()`: split on whitespace runs, dropping empty pieces.
def splitWsAux : Nat → List Char → List String
  | 0, _ => []
  | _ + 1, [] => []
  | fuel + 1, c :: cs =>
    if c.isWhitespace then splitWsAux fuel cs
    else
      let w := (c :: cs).takeWhile (fun d => !d.isWhitespace)
      String.mk w :: splitWsAux fuel ((c :: cs).drop w.length)

def pySplit (s : String) : List String := splitWsAux s.toList.length s.toList

-- Deduplication keeping the first occurrence of each element.
def dedupAux (seen : List String) : List String → List String
  | [] => []
  | x :: xs => if seen.contains x then dedupAux seen xs else x :: dedupAux (seen ++ [x]) xs

def dedupKeepFirst (l : List String) : List String := dedupAux [] l

-- Python `l[:n]`: for n ≥ 0 the first n entries, for n < 0 all but the last |n|.
def pySliceStop {α : Type} (l : List α) (n : Int) : List α :=
  if 0 ≤ n then l.take n.toNat else l.take ((l.length : Int) + n).toNat

-- GoalStatus enum (src/main.py lines 17-21).
inductive GoalStatus
  | pending
  | in_progress
  | completed
  | failed
deriving DecidableEq, Repr

-- Python str(status.value) for the report.
def statusValue : GoalStatus → String
  | GoalStatus.pending => "pending"
  | GoalStatus.in_progress => "in_progress"
  | GoalStatus.completed => "completed"
  | GoalStatus.failed => "failed"

/- A result record is a Python dict whose shape depends on the goal category;
each possible key is an optional field (none = key absent). -/
structure ResultRecord where
  title : Option String := none
  url : Option String := none
  description : Option String := none
  source : Option String := none
  emails : Option (List String) := none
  contact_info : Option (List String) := none
  email : Option String := none
  name : Option String := none
  company : Option String := none
  role : Option String := none
  job_title : Option String := none
  location : Option String := none
  job_url : Option String := none
  content : Option String := none
deriving DecidableEq, Repr

-- AgentState dataclass (src/main.py lines 24-35); messages keep only their text.
structure AgentState where
  goal : String
  target_count : Int
  current_results : List ResultRecord
  search_queries : List String
  attempted_sources : List String
  status : GoalStatus
  iteration_count : Int
  max_iterations : Int
  messages : List String
  last_error : Option String := none
deriving DecidableEq, Repr

-- A raw search hit: a dict with at least title/href/body (none = key absent).
structure Hit where
  title : Option String := none
  href : Option String := none
  body : Option String := none
deriving DecidableEq, Repr

-- Parsed JSON of the goal-analysis LLM response: quantity key, content_type key.
structure AnalysisResponse where
  quantity : Option Int := none
  content_type : Option String := none
deriving DecidableEq, Repr

/- The external collaborators.  Each LLM call is represented by its parsed
outcome (`none` = json.loads failed); provider/fetcher may fail with an error
message (a raised exception). -/
structure Env where
  analyzeResp : String → Option AnalysisResponse
  genResp : AgentState → Option (List String)
  refineResp : AgentState → Option (List String)
  provider : String → Nat → Except String (List Hit)
  fetcher : String → Except String String

-- search (lines 48-55): any provider exception is caught and [] returned.
def search (env : Env) (query : String) (max_results : Nat) : List Hit :=
  match env.provider query max_results with
  | Except.ok results => results
  | Except.error _ => []

-- crawler (lines 57-65): any fetch exception is caught and "" returned.
def crawler (env : Env) (url : String) : String :=
  match env.fetcher url with
  | Except.ok md => md
  | Except.error _ => ""

-- Character classes of the email regex r'\b[A-Za-z0-9._%+-]+@[A-Za-z0-9.-]+\.[A-Z|a-z]{2,}\b'.
def isWordChar (c : Char) : Bool := c.isAlphanum || c == '_'

def isLocalChar (c : Char) : Bool :=
  c.isAlphanum || c == '.' || c == '_' || c == '%' || c == '+' || c == '-'

def isDomainChar (c : Char) : Bool := c.isAlphanum || c == '.' || c == '-'

def isTldChar (c : Char) : Bool := c.isAlpha || c == '|'

/- d matches [A-Za-z0-9.-]+ "." [A-Z|a-z]{2,} exactly: since '.' is not a TLD
character, the only possible split point is before the final TLD-character run. -/
def validDomainSplit (d : List Char) : Bool :=
  let rev := d.reverse
  let t := rev.takeWhile isTldChar
  decide (2 ≤ t.length) &&
    (match rev.drop t.length with
     | '.' :: p => !p.isEmpty && p.all isDomainChar
     | _ => false)

/- Longest prefix of `run` matching the domain part of the regex, subject to
the trailing word-boundary \b (`after` is the character following `run`). -/
def domainMatchLen (run : List Char) (after : Option Char) : Option Nat :=
  ((List.range (run.length + 1)).reverse).findSome? fun n =>
    if n == 0 then none
    else
      let nextC : Option Char :=
        match run.get? n with
        | some c => some c
        | none => after
      if validDomainSplit (run.take n) &&
         (match nextC with
          | some c => !isWordChar c
          | none => true)
      then some n else none

/- Length of a regex match starting exactly at the head of cs, honouring the
leading word boundary (`prev` is the preceding character, none at the start). -/
def tryEmailAt (prev : Option Char) (cs : List Char) : Option Nat :=
  let lp := cs.takeWhile isLocalChar
  match lp with
  | [] => none
  | c0 :: _ =>
    let prevWord : Bool :=
      match prev with
      | none => false
      | some p => isWordChar p
    if prevWord == isWordChar c0 then none
    else
      match cs.drop lp.length with
      | '@' :: rest2 =>
        let run := rest2.takeWhile (fun c => isDomainChar c || c == '|')
        match domainMatchLen run (rest2.get? run.length) with
        | some dlen => some (lp.length + 1 + dlen)
        | none => none
      | _ => none

-- re.findall scan: left to right, non-overlapping; fuel bounds the recursion.
def scanEmailsAux : Nat → Option Char → List Char → List String
  | 0, _, _ => []
  | _ + 1, _, [] => []
  | fuel + 1, prev, c :: cs =>
    match tryEmailAt prev (c :: cs) with
    | some len =>
      String.mk ((c :: cs).take len) ::
        scanEmailsAux fuel ((c :: cs).get? (len - 1)) ((c :: cs).drop len)
    | none => scanEmailsAux fuel (some c) cs

/- _extract_emails_from_content (lines 223-227): regex findall then
list(set(...)).  CPython set iteration order is unspecified; the embedding
keeps the order of first occurrence. -/
def extract_emails_from_content (content : String) : List String :=
  dedupKeepFirst (scanEmailsAux content.toList.length none content.toList)

-- First index at which `needle` occurs in `hay`.
def findIdx? (hay needle : List Char) : Option Nat :=
  (List.range (hay.length + 1)).find? (fun i => listIsPrefixOf needle (hay.drop i))

/- One label pattern r'(?i)label\s*(.+?)(?:\n|$)': case-insensitive search for
the label, skip whitespace, capture to the end of the line, .strip() applied
by the caller.  The embedding uses the first occurrence of the label. -/
def matchLabel (content : String) (lbl : String) : Option String :=
  match findIdx? (strLower content).toList lbl.toList with
  | none => none
  | some i =>
    let rest := (content.toList.drop (i + lbl.length)).dropWhile Char.isWhitespace
    let captured := rest.takeWhile (fun c => !(c == '\n'))
    if captured.isEmpty then none else some (strTrim (String.mk captured))

/- Title pattern r'(?i)<title>(.+?)\s*[-|]\s*(.+?)</title>': group(1) is the
text after <title> up to the first - or | separator, stripped. -/
def matchTitlePattern (content : String) : Option String :=
  match findIdx? (strLower content).toList "<title>".toList with
  | none => none
  | some i =>
    let rest := content.toList.drop (i + 7)
    let beforeSep := rest.takeWhile (fun c => !(c == '-') && !(c == '|') && !(c == '\n'))
    match rest.drop beforeSep.length with
    | c :: rest3 =>
      if (c == '-' || c == '|') && !beforeSep.isEmpty &&
         (findIdx? (strLower (String.mk rest3)).toList "</title>".toList).isSome then
        some (strTrim (String.mk beforeSep))
      else none
    | [] => none

-- Fields of the job-info dict (job_url is always attached).
structure JobInfo where
  job_title : Option String := none
  company : Option String := none
  location : Option String := none
  job_url : String
deriving DecidableEq, Repr

-- _extract_job_info_from_content (lines 229-271): first matching pattern wins.
def extract_job_info_from_content (content : String) (url : String) : JobInfo :=
  { job_title :=
      (matchTitlePattern content).orElse fun _ =>
        (matchLabel content "job title:").orElse fun _ =>
          matchLabel content "position:",
    company :=
      (matchLabel content "company:").orElse fun _ => matchLabel content "employer:",
    location :=
      (matchLabel content "location:").orElse fun _ => matchLabel content "based in:",
    job_url := url }

-- dict.update(job_info) on the processed result.
def mergeJobInfo (base : ResultRecord) (ji : JobInfo) : ResultRecord :=
  { base with
    job_title := ji.job_title.orElse fun _ => base.job_title,
    company := ji.company.orElse fun _ => base.company,
    location := ji.location.orElse fun _ => base.location,
    job_url := some ji.job_url }

-- _get_search_tricks (lines 273-303).
def get_search_tricks (goal : String) : List String :=
  let g := strLower goal
  (if strContains g "email" then
      ["site:linkedin.com", "\"@company.com\"", "contact email",
       "recruiter email", "hiring manager"]
    else []) ++
  (if strContains g "website" then
      ["best tools 2024", "top resources", "list of sites", "directory"]
    else []) ++
  (if strContains g "job" then
      ["site:indeed.com", "site:glassdoor.com", "site:linkedin.com/jobs",
       "hiring", "careers"]
    else [])

-- _is_relevant_result (lines 305-323).
def is_relevant_result (hit : Hit) (goal : String) : Bool :=
  let title := strLower (hit.title.getD "")
  let body := strLower (hit.body.getD "")
  let g := strLower goal
  if strContains g "email" then
    ["email", "contact", "recruiter", "hiring"].any
      (fun k => strContains title k || strContains body k)
  else if strContains g "website" then
    ["tool", "platform", "service", "website"].any
      (fun k => strContains title k || strContains body k)
  else if strContains g "job" then
    ["job", "career", "position", "hiring"].any
      (fun k => strContains title k || strContains body k)
  else true

/- Per-category extraction merged into the processed result
(_perform_search lines 362-376). -/
def applyExtraction (base : ResultRecord) (content goal url : String) : ResultRecord :=
  if ["email", "contact", "recruiter"].any (fun k => strContains (strLower goal) k) then
    let emails := extract_emails_from_content content
    if emails.isEmpty then base
    else { base with emails := some emails, contact_info := some emails }
  else if ["job", "career", "position", "hiring"].any
      (fun k => strContains (strLower goal) k) then
    mergeJobInfo base (extract_job_info_from_content content url)
  else
    { base with content := some (strTake content 500) }

/- Processing of one raw hit (_perform_search lines 345-386): irrelevant hits
are rejected; for an accepted hit the page is crawled, and the record is
appended only inside `if content:` — with an empty url, or when the crawl
yields empty content (which is what every fetch failure produces, since
`crawler` catches its exceptions and returns ""), the record is dropped.
The `except` branch of the inner try is unreachable in this model because
`crawler` never raises. -/
def processHit (env : Env) (goal : String) (hit : Hit) : Option ResultRecord :=
  if is_relevant_result hit goal then
    let base : ResultRecord :=
      { title := some (hit.title.getD ""),
        url := some (hit.href.getD ""),
        description := some (hit.body.getD ""),
        source := some "web_search" }
    let url := hit.href.getD ""
    if url == "" then none
    else
      let content := crawler env url
      if content == "" then none
      else some (applyExtraction base content goal url)
  else none

/- _perform_search (lines 325-396).  The outer try can only be left by an
exception of self.search or self.crawler, both of which catch internally, so
the fallback (`_get_fallback_results`) branch is unreachable and is not part
of the returned value here. -/
def perform_search (env : Env) (query : String) (goal : String) : List ResultRecord :=
  let search_tricks := get_search_tricks goal
  let enhanced_queries := query :: (search_tricks.take 3).map (fun t => query ++ " " ++ t)
  ((enhanced_queries.take 2).map
    (fun eq => (search env eq 5).filterMap (processHit env goal))).flatten

-- _get_fallback_results (lines 398-416); unreachable from _perform_search, kept for completeness.
def get_fallback_results (goal : String) : List ResultRecord :=
  let g := strLower goal
  if strContains g "website" && strContains g "digital marketing" then
    [{ title := some "HubSpot Marketing Hub", url := some "https://hubspot.com",
       description := some "All-in-one marketing platform" },
     { title := some "Moz SEO Tools", url := some "https://moz.com",
       description := some "SEO and marketing analytics" },
     { title := some "SEMrush", url := some "https://semrush.com",
       description := some "Digital marketing toolkit" }]
  else if strContains g "email" && strContains g "recruiter" then
    [{ name := some "Sarah Johnson", email := some "sarah.johnson@techcorp.com",
       company := some "TechCorp", role := some "Senior Recruiter" },
     { name := some "Mike Davis", email := some "mike.davis@startup.io",
       company := some "StartupIO", role := some "Talent Acquisition Manager" }]
  else if strContains g "job" then
    [{ title := some "Senior Software Engineer", company := some "TechCorp",
       url := some "https://jobs.techcorp.com/123", location := some "Remote" },
     { title := some "Data Scientist", company := some "DataCorp",
       url := some "https://careers.datacorp.com/456", location := some "New York" }]
  else []

-- result.get('url', '') and result.get('email', '') of the candidate record.
def urlD (r : ResultRecord) : String := r.url.getD ""

def emailD (r : ResultRecord) : String := r.email.getD ""

/- The uniqueness loop of _execute_search (lines 196-207): the candidate is
unique unless its truthy url equals an existing record's 'url' value, or its
truthy singular 'email' value equals an existing record's 'email' value.
Elements of an 'emails' list are never consulted. -/
def is_unique (r : ResultRecord) (existing : List ResultRecord) : Bool :=
  decide (∀ ex ∈ existing,
    ¬(urlD r ≠ "" ∧ ex.url = some (urlD r)) ∧
    ¬(emailD r ≠ "" ∧ ex.email = some (emailD r)))

-- Appending with the uniqueness check, in discovery order (lines 194-210).
def addResults (existing incoming : List ResultRecord) : List ResultRecord :=
  incoming.foldl (fun acc r => if is_unique r acc then acc ++ [r] else acc) existing

/- Body of the per-query loop of _execute_search (lines 189-217).  In this
model _perform_search is total, so the except branch (which would set
last_error before marking the query attempted) is unreachable. -/
def execStep (env : Env) (st : AgentState) (query : String) : AgentState :=
  { st with
    current_results := addResults st.current_results (perform_search env query st.goal),
    attempted_sources := st.attempted_sources ++ [query] }

-- Query selection of _execute_search (line 187): next up to 3 unattempted queries.
def queries_to_try (s : AgentState) : List String :=
  (s.search_queries.filter (fun q => !(s.attempted_sources.contains q))).take 3

-- Line 219: state.iteration_count += 1.
def bump_iteration (st : AgentState) : AgentState :=
  { st with iteration_count := st.iteration_count + 1 }

-- _execute_search (lines 182-221).
def execute_search (env : Env) (s : AgentState) : AgentState :=
  bump_iteration ((queries_to_try s).foldl (execStep env) s)

/- _validate_results (lines 418-440).  The untried-queries check at the end
only prints and does not change the state. -/
def validate_results (s : AgentState) : AgentState :=
  if (s.current_results.length : Int) ≥ s.target_count then
    { s with status := GoalStatus.completed }
  else if s.iteration_count ≥ s.max_iterations then
    { s with status := GoalStatus.failed }
  else s

-- _should_continue (lines 442-449).
def should_continue (s : AgentState) : String :=
  if s.status = GoalStatus.completed then "complete"
  else if s.status = GoalStatus.failed then "failed"
  else "continue"

/- The shared duplicate-suppressing merge loop: for each proposed query,
append it only if it is not already in the ledger. -/
def mergeQueries (acc : List String) (qs : List String) : List String :=
  qs.foldl (fun a q => if q ∈ a then a else a ++ [q]) acc

-- _generate_search_strategy (lines 132-180).
def generate_search_strategy (s : AgentState) (resp : Option (List String)) : AgentState :=
  match resp with
  | some new_queries =>
    { s with search_queries := mergeQueries s.search_queries new_queries }
  | none =>
    if strContains (strLower s.goal) "website" then
      { s with search_queries := s.search_queries ++
          ["best " ++ (pySplit s.goal).headD "" ++ " websites",
           "top " ++ (pySplit s.goal).headD "" ++ " tools online",
           "useful " ++ (pySplit s.goal).headD "" ++ " resources"] }
    else if strContains (strLower s.goal) "email" then
      { s with search_queries := s.search_queries ++
          ["recruiter email contacts", "HR manager email directory",
           "talent acquisition email list"] }
    else s

-- _refine_strategy (lines 451-488).
def refine_strategy (s : AgentState) (resp : Option (List String)) : AgentState :=
  match resp with
  | some new_queries =>
    { s with search_queries := mergeQueries s.search_queries new_queries }
  | none =>
    let newqs := (pySplit s.goal).map (fun term => "best " ++ term ++ " resources 2024")
    { s with search_queries := mergeQueries s.search_queries newqs }

-- _analyze_goal (lines 103-130); status is set to IN_PROGRESS on both paths.
def analyze_goal (s : AgentState) (resp : Option AnalysisResponse) : AgentState :=
  match resp with
  | some analysis =>
    { s with
      target_count := analysis.quantity.getD 10,
      messages := s.messages ++
        ["Goal analyzed: Need " ++ toString (analysis.quantity.getD 10) ++ " " ++
          analysis.content_type.getD "items"],
      status := GoalStatus.in_progress }
  | none =>
    { s with target_count := 10, status := GoalStatus.in_progress }

-- Python truthiness of an optional string / optional list value.
def truthyStr : Option String → Bool
  | some s => !(s == "")
  | none => false

def truthyList : Option (List String) → Bool
  | some l => !l.isEmpty
  | none => false

-- One numbered line of the final report (_finalize_results lines 506-522).
def resultLine (i : Nat) (r : ResultRecord) : String :=
  if truthyStr r.url then
    toString i ++ ". " ++ r.title.getD "No title" ++ " - " ++ r.url.getD "" ++ "\n" ++
    (if truthyStr r.description then
        "   Description: " ++ r.description.getD "" ++ "\n" else "") ++
    (if truthyList r.emails then
        "   Emails: " ++ strIntercalate ", " (r.emails.getD []) ++ "\n" else "")
  else if truthyStr r.email then
    toString i ++ ". " ++ r.name.getD "Unknown" ++ " - " ++ r.email.getD "" ++
    " (" ++ r.company.getD "Unknown Company" ++ ")\n" ++
    (if truthyStr r.role then "   Role: " ++ r.role.getD "" ++ "\n" else "")
  else if r.contact_info.isSome then
    toString i ++ ". Contact Information: " ++
      strIntercalate ", " (r.contact_info.getD []) ++ "\n"
  else
    toString i ++ ". " ++ r.title.getD "No title" ++ "\n" ++
    (if truthyStr r.description then "   " ++ r.description.getD "" ++ "\n" else "")

-- The final report text (built from the already truncated state).
def buildFinalMessage (s : AgentState) : String :=
  "\n🎯 Goal: " ++ s.goal ++
  "\n✅ Status: " ++ strUpper (statusValue s.status) ++
  "\n📊 Results: " ++ toString s.current_results.length ++ "/" ++
    toString s.target_count ++
  "\n🔄 Iterations: " ++ toString s.iteration_count ++
  "\n\nResults:\n" ++
  strJoin (s.current_results.enum.map (fun p => resultLine (p.1 + 1) p.2))

-- _finalize_results (lines 490-526): truncate, then append the report message.
def finalize_results (s : AgentState) : AgentState :=
  let truncated := { s with current_results := pySliceStop s.current_results s.target_count }
  { truncated with messages := truncated.messages ++ [buildFinalMessage truncated] }

/- The LangGraph loop (execute_search → validate_results → conditional edges,
_build_graph lines 79-99): "complete" goes to finalize_results then END,
"failed" goes straight to END, "continue" goes through refine_strategy back
to execute_search.  The fuel argument only bounds the recursion; the
termination theorem shows it is never exhausted when it is at least
max_iterations. -/
def graphLoop (env : Env) : Nat → AgentState → AgentState
  | 0, s => s
  | n + 1, s =>
    let s2 := validate_results (execute_search env s)
    if should_continue s2 = "complete" then finalize_results s2
    else if should_continue s2 = "failed" then s2
    else graphLoop env n (refine_strategy s2 (env.refineResp s2))

-- Initial state of run_agent (lines 533-543).
def initial_state (goal : String) (max_iterations : Int) : AgentState :=
  { goal := goal,
    target_count := 10,
    current_results := [],
    search_queries := [],
    attempted_sources := [],
    status := GoalStatus.pending,
    iteration_count := 0,
    max_iterations := max_iterations,
    messages := [goal],
    last_error := none }

/- run_agent (lines 528-584): analyze_goal → generate_search_strategy → loop.
The checkpointer/thread-id configuration does not affect the state
transitions and is not modelled. -/
def run_agent (env : Env) (goal : String) (max_iterations : Int) : AgentState :=
  let s0 := initial_state goal max_iterations
  let s1 := analyze_goal s0 (env.analyzeResp goal)
  let s2 := generate_search_strategy s1 (env.genResp s1)
  graphLoop env max_iterations.toNat s2

/- The dedup invariant the spec claims, restricted to the keys the code
actually compares: no two records share a non-empty url value and no two
share a non-empty singular email value. -/
def DedupOK (l : List ResultRecord) : Prop :=
  l.Pairwise (fun a b =>
    (urlD a = "" ∨ urlD a ≠ urlD b) ∧ (emailD a = "" ∨ emailD a ≠ emailD b))

-- A fully failing environment: every external call raises or is unparseable.
def envTriv : Env :=
  { analyzeResp := fun _ => none,
    genResp := fun _ => none,
    refineResp := fun _ => none,
    provider := fun _ _ => Except.error "network down",
    fetcher := fun _ => Except.error "network down" }

-- Fixtures for C2: two hits with distinct urls whose pages carry the same email.
def hitC2a : Hit :=
  { title := some "Contact page one", href := some "https://x1.example", body := some "" }

def hitC2b : Hit :=
  { title := some "Contact page two", href := some "https://x2.example", body := some "" }

def envC2 : Env :=
  { analyzeResp := fun _ => none,
    genResp := fun _ => none,
    refineResp := fun _ => none,
    provider := fun q _ =>
      if q = "recruiter leads" then Except.ok [hitC2a, hitC2b] else Except.ok [],
    fetcher := fun _ => Except.ok "reach us: a@b.com" }

def sC2 : AgentState :=
  { goal := "email leads", target_count := 10, current_results := [],
    search_queries := ["recruiter leads"], attempted_sources := [],
    status := GoalStatus.in_progress, iteration_count := 0, max_iterations := 5,
    messages := [], last_error := none }

-- Fixture state for C3: one pending query, empty results, no recorded error.
def sC3 : AgentState :=
  { goal := "gather things", target_count := 10, current_results := [],
    search_queries := ["q1"], attempted_sources := [],
    status := GoalStatus.in_progress, iteration_count := 0, max_iterations := 5,
    messages := [], last_error := none }

-- Fixtures for C4: a relevant hit whose page fetch raises.
def hitC4 : Hit :=
  { title := some "Contact page", href := some "https://site.example", body := some "" }

def envC4 : Env :=
  { analyzeResp := fun _ => none,
    genResp := fun _ => none,
    refineResp := fun _ => none,
    provider := fun q _ => if q = "qc4" then Except.ok [hitC4] else Except.ok [],
    fetcher := fun _ => Except.error "timeout" }

def sC4 : AgentState :=
  { goal := "find email contacts", target_count := 10, current_results := [],
    search_queries := ["qc4"], attempted_sources := [],
    status := GoalStatus.in_progress, iteration_count := 0, max_iterations := 5,
    messages := [], last_error := none }

-- Fixtures for C5: two accumulated records, target_count 1.
def rec1 : ResultRecord := { title := some "A", url := some "https://a.example" }

def rec2 : ResultRecord := { title := some "B", url := some "https://b.example" }

def sC5 : AgentState :=
  { goal := "plain goal", target_count := 1, current_results := [rec1, rec2],
    search_queries := [], attempted_sources := [],
    status := GoalStatus.in_progress, iteration_count := 0, max_iterations := 5,
    messages := [], last_error := none }

def sW5 : AgentState := { sC5 with status := GoalStatus.completed }

-- Fixture for C6 witness: empty results at the iteration ceiling.
def sW6 : AgentState := { sC3 with iteration_count := 5 }

-- Fixtures for C7 scenario: 12 unique email-bearing records, target_count 10.
def recN (i : Nat) : ResultRecord :=
  { title := some ("R" ++ toString i),
    url := some ("https://r" ++ toString i ++ ".example"),
    emails := some ["u" ++ toString i ++ "@mail.example"] }

def sC7 : AgentState :=
  { goal := "Find 10 email addresses of recruiters", target_count := 10,
    current_results := (List.range 12).map recN,
    search_queries := [], attempted_sources := [],
    status := GoalStatus.in_progress, iteration_count := 1, max_iterations := 5,
    messages := [], last_error := none }

-- Fixture for C8 witness: target unreachable and max_iterations = 1.
def sW8 : AgentState :=
  { goal := "gather things", target_count := 10, current_results := [],
    search_queries := [], attempted_sources := [],
    status := GoalStatus.in_progress, iteration_count := 0, max_iterations := 1,
    messages := [], last_error := none }

-- Fixtures for C9: the first fallback query is already in the ledger.
def sC9 : AgentState :=
  { goal := "email outreach", target_count := 10, current_results := [],
    search_queries := ["recruiter email contacts"], attempted_sources := [],
    status := GoalStatus.in_progress, iteration_count := 0, max_iterations := 5,
    messages := [], last_error := none }

def sW9 : AgentState :=
  { goal := "gather things", target_count := 10, current_results := [],
    search_queries := [], attempted_sources := [],
    status := GoalStatus.in_progress, iteration_count := 0, max_iterations := 5,
    messages := [], last_error := none }

-- Fixtures for C10: a parsed analysis whose quantity is 0.
def aW10 : AnalysisResponse := { quantity := some 0 }

def sW10 : AgentState :=
  { goal := "gather things", target_count := 10, current_results := [],
    search_queries := [], attempted_sources := [],
    status := GoalStatus.pending, iteration_count := 0, max_iterations := 5,
    messages := [], last_error := none }

def sW10b : AgentState := { sW10 with target_count := 0 }

lemma urlD_eq_some {a : ResultRecord} (h : urlD a ≠ "") : a.url = some (urlD a) := by
  unfold urlD at h ⊢
  cases hu : a.url with
  | none => rw [hu] at h; simp at h
  | some u => rfl

lemma emailD_eq_some {a : ResultRecord} (h : emailD a ≠ "") : a.email = some (emailD a) := by
  unfold emailD at h ⊢
  cases hu : a.email with
  | none => rw [hu] at h; simp at h
  | some u => rfl

lemma is_unique_iff (r : ResultRecord) (existing : List ResultRecord) :
    is_unique r existing = true ↔
      ∀ ex ∈ existing,
        ¬(urlD r ≠ "" ∧ ex.url = some (urlD r)) ∧
        ¬(emailD r ≠ "" ∧ ex.email = some (emailD r)) := by
  simp [is_unique]

lemma addResults_dedup :
    ∀ (incoming acc : List ResultRecord), DedupOK acc → DedupOK (addResults acc incoming) := by
  intro incoming
  induction incoming with
  | nil => intro acc h; exact h
  | cons r rest ih =>
    intro acc h
    have hstep : addResults acc (r :: rest)
        = addResults (if is_unique r acc then acc ++ [r] else acc) rest := rfl
    rw [hstep]
    by_cases hu : is_unique r acc = true
    · rw [if_pos hu]
      apply ih
      unfold DedupOK at h ⊢
      rw [List.pairwise_append]
      refine ⟨h, List.pairwise_singleton _ _, ?_⟩
      intro a ha b hb
      have hb' : b = r := List.mem_singleton.mp hb
      rw [hb']
      have hcheck := (is_unique_iff r acc).mp hu a ha
      constructor
      · by_cases hae : urlD a = ""
        · exact Or.inl hae
        · refine Or.inr fun heq => hcheck.1 ⟨?_, ?_⟩
          · rw [← heq]; exact hae
          · rw [urlD_eq_some hae, heq]
      · by_cases hae : emailD a = ""
        · exact Or.inl hae
        · refine Or.inr fun heq => hcheck.2 ⟨?_, ?_⟩
          · rw [← heq]; exact hae
          · rw [emailD_eq_some hae, heq]
    · rw [if_neg hu]
      exact ih acc h

lemma execFold_dedup (env : Env) (l : List String) :
    ∀ st : AgentState, DedupOK st.current_results →
      DedupOK ((l.foldl (execStep env) st).current_results) := by
  induction l with
  | nil => intro st h; exact h
  | cons q rest ih =>
    intro st h
    have hstep : (q :: rest).foldl (execStep env) st
        = rest.foldl (execStep env) (execStep env st q) := rfl
    rw [hstep]
    exact ih _ (addResults_dedup _ _ h)

lemma search_of_error {env : Env}
    (h : ∀ q n, ∃ msg, env.provider q n = Except.error msg)
    (q : String) (n : Nat) : search env q n = [] := by
  obtain ⟨msg, hm⟩ := h q n
  unfold search
  rw [hm]

lemma flatten_nil_of_all {α β : Type} (l : List α) (f : α → List β)
    (h : ∀ x, f x = []) : (l.map f).flatten = [] := by
  induction l with
  | nil => rfl
  | cons x xs ih => simp [h x, ih]

lemma perform_of_error {env : Env}
    (h : ∀ q n, ∃ msg, env.provider q n = Except.error msg)
    (q g : String) : perform_search env q g = [] := by
  unfold perform_search
  exact flatten_nil_of_all _ _ fun eq => by rw [search_of_error h eq 5]; rfl

lemma execStep_of_error {env : Env}
    (h : ∀ q n, ∃ msg, env.provider q n = Except.error msg)
    (st : AgentState) (q : String) :
    execStep env st q = { st with attempted_sources := st.attempted_sources ++ [q] } := by
  unfold execStep
  rw [perform_of_error h]
  rfl

lemma execFold_of_error {env : Env}
    (h : ∀ q n, ∃ msg, env.provider q n = Except.error msg) :
    ∀ (l : List String) (st : AgentState),
      l.foldl (execStep env) st
        = { st with attempted_sources := st.attempted_sources ++ l } := by
  intro l
  induction l with
  | nil => intro st; simp
  | cons q rest ih =>
    intro st
    have hstep : (q :: rest).foldl (execStep env) st
        = rest.foldl (execStep env) (execStep env st q) := rfl
    rw [hstep, execStep_of_error h, ih]
    simp

lemma validate_completed {s : AgentState}
    (h : (s.current_results.length : Int) ≥ s.target_count) :
    validate_results s = { s with status := GoalStatus.completed } := by
  unfold validate_results
  rw [if_pos h]

lemma validate_failed {s : AgentState}
    (h1 : ¬((s.current_results.length : Int) ≥ s.target_count))
    (h2 : s.iteration_count ≥ s.max_iterations) :
    validate_results s = { s with status := GoalStatus.failed } := by
  unfold validate_results
  rw [if_neg h1, if_pos h2]

lemma validate_id {s : AgentState}
    (h1 : ¬((s.current_results.length : Int) ≥ s.target_count))
    (h2 : ¬(s.iteration_count ≥ s.max_iterations)) :
    validate_results s = s := by
  unfold validate_results
  rw [if_neg h1, if_neg h2]

lemma validate_fields (s : AgentState) :
    (validate_results s).current_results = s.current_results ∧
    (validate_results s).iteration_count = s.iteration_count ∧
    (validate_results s).max_iterations = s.max_iterations ∧
    (validate_results s).target_count = s.target_count ∧
    (validate_results s).search_queries = s.search_queries ∧
    (validate_results s).attempted_sources = s.attempted_sources ∧
    (validate_results s).messages = s.messages := by
  unfold validate_results
  split
  · exact ⟨rfl, rfl, rfl, rfl, rfl, rfl, rfl⟩
  · split
    · exact ⟨rfl, rfl, rfl, rfl, rfl, rfl, rfl⟩
    · exact ⟨rfl, rfl, rfl, rfl, rfl, rfl, rfl⟩

lemma execFold_fields (env : Env) (l : List String) :
    ∀ st : AgentState,
      (l.foldl (execStep env) st).iteration_count = st.iteration_count ∧
      (l.foldl (execStep env) st).max_iterations = st.max_iterations ∧
      (l.foldl (execStep env) st).target_count = st.target_count ∧
      (l.foldl (execStep env) st).status = st.status ∧
      (l.foldl (execStep env) st).goal = st.goal ∧
      (l.foldl (execStep env) st).search_queries = st.search_queries ∧
      (l.foldl (execStep env) st).last_error = st.last_error ∧
      (l.foldl (execStep env) st).messages = st.messages := by
  induction l with
  | nil => intro st; exact ⟨rfl, rfl, rfl, rfl, rfl, rfl, rfl, rfl⟩
  | cons q rest ih => intro st; exact ih (execStep env st q)

lemma execute_fields (env : Env) (s : AgentState) :
    (execute_search env s).iteration_count = s.iteration_count + 1 ∧
    (execute_search env s).max_iterations = s.max_iterations ∧
    (execute_search env s).target_count = s.target_count ∧
    (execute_search env s).status = s.status ∧
    (execute_search env s).goal = s.goal ∧
    (execute_search env s).search_queries = s.search_queries ∧
    (execute_search env s).last_error = s.last_error ∧
    (execute_search env s).messages = s.messages := by
  have h := execFold_fields env (queries_to_try s) s
  refine ⟨?_, h.2.1, h.2.2.1, h.2.2.2.1, h.2.2.2.2.1, h.2.2.2.2.2.1,
    h.2.2.2.2.2.2.1, h.2.2.2.2.2.2.2⟩
  show ((queries_to_try s).foldl (execStep env) s).iteration_count + 1
      = s.iteration_count + 1
  rw [h.1]

lemma finalize_fields (s : AgentState) :
    (finalize_results s).status = s.status ∧
    (finalize_results s).iteration_count = s.iteration_count ∧
    (finalize_results s).max_iterations = s.max_iterations ∧
    (finalize_results s).search_queries = s.search_queries ∧
    (finalize_results s).attempted_sources = s.attempted_sources ∧
    (finalize_results s).current_results = pySliceStop s.current_results s.target_count :=
  ⟨rfl, rfl, rfl, rfl, rfl, rfl⟩

lemma refine_fields (s : AgentState) (r : Option (List String)) :
    (refine_strategy s r).iteration_count = s.iteration_count ∧
    (refine_strategy s r).max_iterations = s.max_iterations ∧
    (refine_strategy s r).target_count = s.target_count ∧
    (refine_strategy s r).status = s.status ∧
    (refine_strategy s r).current_results = s.current_results ∧
    (refine_strategy s r).goal = s.goal := by
  cases r with
  | some qs => exact ⟨rfl, rfl, rfl, rfl, rfl, rfl⟩
  | none => exact ⟨rfl, rfl, rfl, rfl, rfl, rfl⟩

lemma analyze_fields (s : AgentState) (r : Option AnalysisResponse) :
    (analyze_goal s r).iteration_count = s.iteration_count ∧
    (analyze_goal s r).max_iterations = s.max_iterations ∧
    (analyze_goal s r).current_results = s.current_results := by
  cases r with
  | some a => exact ⟨rfl, rfl, rfl⟩
  | none => exact ⟨rfl, rfl, rfl⟩

lemma generate_fields (s : AgentState) (r : Option (List String)) :
    (generate_search_strategy s r).iteration_count = s.iteration_count ∧
    (generate_search_strategy s r).max_iterations = s.max_iterations ∧
    (generate_search_strategy s r).current_results = s.current_results ∧
    (generate_search_strategy s r).status = s.status := by
  cases r with
  | some qs => exact ⟨rfl, rfl, rfl, rfl⟩
  | none =>
    unfold generate_search_strategy
    by_cases h1 : strContains (strLower s.goal) "website" = true
    · rw [if_pos h1]; exact ⟨rfl, rfl, rfl, rfl⟩
    · rw [if_neg h1]
      by_cases h2 : strContains (strLower s.goal) "email" = true
      · rw [if_pos h2]; exact ⟨rfl, rfl, rfl, rfl⟩
      · rw [if_neg h2]; exact ⟨rfl, rfl, rfl, rfl⟩

lemma sc_complete (s : AgentState) :
    should_continue s = "complete" ↔ s.status = GoalStatus.completed := by
  cases h : s.status <;> simp [should_continue, h]

lemma sc_failed (s : AgentState) :
    should_continue s = "failed" ↔ s.status = GoalStatus.failed := by
  cases h : s.status <;> simp [should_continue, h]

lemma mergeQueries_suffix (qs : List String) :
    ∀ acc, ∃ t, mergeQueries acc qs = acc ++ t := by
  induction qs with
  | nil => intro acc; exact ⟨[], (List.append_nil acc).symm⟩
  | cons q rest ih =>
    intro acc
    have hstep : mergeQueries acc (q :: rest)
        = mergeQueries (if q ∈ acc then acc else acc ++ [q]) rest := rfl
    rw [hstep]
    by_cases hq : q ∈ acc
    · rw [if_pos hq]; exact ih acc
    · rw [if_neg hq]
      obtain ⟨t, htt⟩ := ih (acc ++ [q])
      exact ⟨[q] ++ t, by rw [htt, List.append_assoc]⟩

lemma mergeQueries_nodup (qs : List String) :
    ∀ acc, acc.Nodup → (mergeQueries acc qs).Nodup := by
  induction qs with
  | nil => intro acc h; exact h
  | cons q rest ih =>
    intro acc h
    have hstep : mergeQueries acc (q :: rest)
        = mergeQueries (if q ∈ acc then acc else acc ++ [q]) rest := rfl
    rw [hstep]
    by_cases hq : q ∈ acc
    · rw [if_pos hq]; exact ih acc h
    · rw [if_neg hq]
      refine ih _ ?_
      rw [List.nodup_append]
      refine ⟨h, List.nodup_singleton q, ?_⟩
      intro x hx hx'
      rw [List.mem_singleton] at hx'
      subst hx'
      exact hq hx

lemma mergeQueries_mem_acc (qs acc : List String) {x : String}
    (h : x ∈ acc) : x ∈ mergeQueries acc qs := by
  obtain ⟨t, ht⟩ := mergeQueries_suffix qs acc
  rw [ht]
  exact List.mem_append_left t h

lemma mergeQueries_mem (qs : List String) :
    ∀ acc, ∀ x ∈ qs, x ∈ mergeQueries acc qs := by
  induction qs with
  | nil => intro acc x hx; cases hx
  | cons q rest ih =>
    intro acc x hx
    have hstep : mergeQueries acc (q :: rest)
        = mergeQueries (if q ∈ acc then acc else acc ++ [q]) rest := rfl
    rw [hstep]
    rcases List.mem_cons.mp hx with hxe | hx'
    · subst hxe
      apply mergeQueries_mem_acc
      by_cases hq : x ∈ acc
      · rw [if_pos hq]; exact hq
      · rw [if_neg hq]
        exact List.mem_append_right acc (List.mem_singleton_self x)
    · exact ih _ x hx'

lemma validate_status_of_not_terminal {t : AgentState}
    (hc : (validate_results t).status ≠ GoalStatus.completed)
    (hf : (validate_results t).status ≠ GoalStatus.failed) :
    validate_results t = t ∧ t.iteration_count < t.max_iterations := by
  by_cases h1 : (t.current_results.length : Int) ≥ t.target_count
  · exact absurd (by rw [validate_completed h1]) hc
  by_cases h2 : t.iteration_count ≥ t.max_iterations
  · exact absurd (by rw [validate_failed h1 h2]) hf
  · exact ⟨validate_id h1 h2, by omega⟩

lemma graphLoop_term (env : Env) :
    ∀ (n : Nat) (s : AgentState),
      s.max_iterations ≤ s.iteration_count + n →
      s.iteration_count < s.max_iterations →
      ((graphLoop env n s).status = GoalStatus.completed ∨
        (graphLoop env n s).status = GoalStatus.failed) ∧
      (graphLoop env n s).iteration_count ≤ s.max_iterations := by
  intro n
  induction n with
  | zero => intro s h1 h2; exfalso; omega
  | succ n ih =>
    intro s h1 h2
    have hef := execute_fields env s
    have hvf := validate_fields (execute_search env s)
    have hiter : (validate_results (execute_search env s)).iteration_count
        = s.iteration_count + 1 := by rw [hvf.2.1, hef.1]
    have hmax : (validate_results (execute_search env s)).max_iterations
        = s.max_iterations := by rw [hvf.2.2.1, hef.2.1]
    simp only [graphLoop]
    by_cases hc : should_continue (validate_results (execute_search env s)) = "complete"
    · rw [if_pos hc]
      have hst := (sc_complete _).mp hc
      have hff := finalize_fields (validate_results (execute_search env s))
      constructor
      · exact Or.inl (by rw [hff.1, hst])
      · rw [hff.2.1, hiter]; omega
    · rw [if_neg hc]
      by_cases hf : should_continue (validate_results (execute_search env s)) = "failed"
      · rw [if_pos hf]
        have hst := (sc_failed _).mp hf
        exact ⟨Or.inr hst, by rw [hiter]; omega⟩
      · rw [if_neg hf]
        have hcs : (validate_results (execute_search env s)).status ≠ GoalStatus.completed :=
          fun hh => hc ((sc_complete _).mpr hh)
        have hfs : (validate_results (execute_search env s)).status ≠ GoalStatus.failed :=
          fun hh => hf ((sc_failed _).mpr hh)
        obtain ⟨hvid, hlt⟩ := validate_status_of_not_terminal hcs hfs
        have hlt' : s.iteration_count + 1 < s.max_iterations := by
          rw [hef.1, hef.2.1] at hlt; exact hlt
        have hrf := refine_fields (validate_results (execute_search env s))
          (env.refineResp (validate_results (execute_search env s)))
        have hit3 : (refine_strategy (validate_results (execute_search env s))
            (env.refineResp (validate_results (execute_search env s)))).iteration_count
            = s.iteration_count + 1 := by rw [hrf.1, hiter]
        have hmx3 : (refine_strategy (validate_results (execute_search env s))
            (env.refineResp (validate_results (execute_search env s)))).max_iterations
            = s.max_iterations := by rw [hrf.2.1, hmax]
        have hrec := ih (refine_strategy (validate_results (execute_search env s))
            (env.refineResp (validate_results (execute_search env s))))
          (by rw [hit3, hmx3]; omega) (by rw [hit3, hmx3]; exact hlt')
        rw [hmx3] at hrec
        exact hrec

lemma run_term (env : Env) (goal : String) (K : Int) (hK : 0 < K) :
    ((run_agent env goal K).status = GoalStatus.completed ∨
      (run_agent env goal K).status = GoalStatus.failed) ∧
    (run_agent env goal K).iteration_count ≤ K := by
  simp only [run_agent]
  have ha := analyze_fields (initial_state goal K) (env.analyzeResp goal)
  have hg := generate_fields (analyze_goal (initial_state goal K) (env.analyzeResp goal))
    (env.genResp (analyze_goal (initial_state goal K) (env.analyzeResp goal)))
  have hit : (generate_search_strategy (analyze_goal (initial_state goal K) (env.analyzeResp goal))
      (env.genResp (analyze_goal (initial_state goal K) (env.analyzeResp goal)))).iteration_count
      = 0 := by
    rw [hg.1, ha.1]; rfl
  have hmx : (generate_search_strategy (analyze_goal (initial_state goal K) (env.analyzeResp goal))
      (env.genResp (analyze_goal (initial_state goal K) (env.analyzeResp goal)))).max_iterations
      = K := by
    rw [hg.2.1, ha.2.1]; rfl
  have hmain := graphLoop_term env K.toNat
    (generate_search_strategy (analyze_goal (initial_state goal K) (env.analyzeResp goal))
      (env.genResp (analyze_goal (initial_state goal K) (env.analyzeResp goal))))
    (by rw [hit, hmx]; omega) (by rw [hit, hmx]; omega)
  rw [hmx] at hmain
  exact hmain

/-- C1: for every environment, goal, and positive max_iterations K, each round
increments iteration_count by exactly 1, the post-round validation assigns
COMPLETED or FAILED whenever iteration_count has reached max_iterations, and
the run loop terminates after at most K rounds with a terminal status. -/
theorem C1_termination (env : Env) (goal : String) (K : Int) (hK : 0 < K) :
    (∀ s : AgentState, (execute_search env s).iteration_count = s.iteration_count + 1) ∧
    (∀ s : AgentState, s.max_iterations ≤ s.iteration_count →
      (validate_results s).status = GoalStatus.completed ∨
        (validate_results s).status = GoalStatus.failed) ∧
    ((run_agent env goal K).status = GoalStatus.completed ∨
      (run_agent env goal K).status = GoalStatus.failed) ∧
    (run_agent env goal K).iteration_count ≤ K := by
  refine ⟨fun s => (execute_fields env s).1, fun s hs => ?_,
    (run_term env goal K hK).1, (run_term env goal K hK).2⟩
  by_cases h1 : (s.current_results.length : Int) ≥ s.target_count
  · exact Or.inl (by rw [validate_completed h1])
  · exact Or.inr (by rw [validate_failed h1 hs])

/-- Witness for C1 with the all-failing environment, goal "find things", K = 1. -/
theorem C1_termination_witness :
    (0 : Int) < 1 ∧
    ((run_agent envTriv "find things" 1).status = GoalStatus.completed ∨
      (run_agent envTriv "find things" 1).status = GoalStatus.failed) :=
  ⟨by decide, (C1_termination envTriv "find things" 1 (by decide)).2.2.1⟩

/-- C2 (amended): provided the invariant held before the round, after the round
no two accepted records carry the same non-empty url and no two carry the same
non-empty singular email value; the executor's uniqueness test compares only
the candidate's url and its singular email field against existing records —
elements of the emails lists are never compared. -/
theorem C2_dedup_invariant (env : Env) (s : AgentState)
    (h : DedupOK s.current_results) :
    DedupOK (execute_search env s).current_results ∧
    (∀ r acc, is_unique r acc = true ↔
      ∀ ex ∈ acc, ¬(urlD r ≠ "" ∧ ex.url = some (urlD r)) ∧
                  ¬(emailD r ≠ "" ∧ ex.email = some (emailD r))) :=
  ⟨execFold_dedup env (queries_to_try s) s h, fun r acc => is_unique_iff r acc⟩

/-- Witness for C2 on a state with an empty result store. -/
theorem C2_dedup_invariant_witness :
    DedupOK sC3.current_results ∧ DedupOK (execute_search envTriv sC3).current_results :=
  ⟨List.Pairwise.nil, (C2_dedup_invariant envTriv sC3 List.Pairwise.nil).1⟩

/-- C2 counterexample: two records with distinct urls but identical one-element
emails sets are both accepted in the same round, so the accepted results do
contain two records sharing an element of their emails sets. -/
theorem C2_counterexample :
    ((execute_search envC2 sC2).current_results.map (fun r => r.url))
      = [some "https://x1.example", some "https://x2.example"] ∧
    ((execute_search envC2 sC2).current_results.map (fun r => r.emails))
      = [some ["a@b.com"], some ["a@b.com"]] := by
  constructor
  · rfl
  · rfl

/-- C3 (amended): when the external search provider raises for every query, the
exception is caught inside `search` and each selected query yields zero hits:
the round leaves the results unchanged, marks the selected queries attempted,
and does not raise — but last_error is left unchanged (the error is only
printed; the except branch of _execute_search that would record it can only
fire if _perform_search itself raises, which it never does). -/
theorem C3_search_error_behavior (env : Env) (s : AgentState)
    (h : ∀ q n, ∃ msg, env.provider q n = Except.error msg) :
    (execute_search env s).current_results = s.current_results ∧
    (execute_search env s).attempted_sources
      = s.attempted_sources ++ queries_to_try s ∧
    (execute_search env s).last_error = s.last_error ∧
    (execute_search env s).iteration_count = s.iteration_count + 1 := by
  unfold execute_search bump_iteration
  rw [execFold_of_error h]
  exact ⟨rfl, rfl, rfl, rfl⟩

/-- Witness for C3 with the all-failing environment. -/
theorem C3_search_error_behavior_witness :
    (∀ q n, ∃ msg, envTriv.provider q n = Except.error msg) ∧
    (execute_search envTriv sC3).current_results = sC3.current_results :=
  ⟨fun _ _ => ⟨"network down", rfl⟩,
    (C3_search_error_behavior envTriv sC3 (fun _ _ => ⟨"network down", rfl⟩)).1⟩

/-- C3 counterexample: with a provider that raises for every query, the round
marks the query attempted and adds nothing, but last_error remains unset —
refuting the claim that last_error is set to the error text. -/
theorem C3_counterexample :
    (execute_search envTriv sC3).last_error = none ∧
    (execute_search envTriv sC3).attempted_sources = ["q1"] ∧
    (execute_search envTriv sC3).current_results = [] := by
  refine ⟨rfl, rfl, rfl⟩

/-- C4 (code bug): hitC4 is accepted by the relevance filter, its page fetch
raises so the crawler returns "", and the record is silently dropped — the
round produces no results, although the code's own comment says the basic
result should still be added when crawling fails. -/
theorem C4_fetch_failure_drops_hit :
    is_relevant_result hitC4 "find email contacts" = true ∧
    crawler envC4 "https://site.example" = "" ∧
    perform_search envC4 "qc4" "find email contacts" = [] ∧
    (execute_search envC4 sC4).current_results = [] := by
  refine ⟨rfl, rfl, rfl, rfl⟩

/-- C5 (amended): once status is terminal the dispatcher never selects another
round ("continue" is impossible); on FAILED the graph stops at once; the only
subsequently executed component, finalization on COMPLETED, leaves the query
ledger unchanged and replaces the results by their own truncation to the first
target_count entries — it appends nothing, but the truncation does mutate the
results sequence when more than target_count records were accumulated. -/
theorem C5_terminal_stops_accumulation (s : AgentState)
    (h : s.status = GoalStatus.completed ∨ s.status = GoalStatus.failed) :
    should_continue s ≠ "continue" ∧
    (s.status = GoalStatus.failed → should_continue s = "failed") ∧
    (finalize_results s).search_queries = s.search_queries ∧
    (finalize_results s).current_results = pySliceStop s.current_results s.target_count := by
  refine ⟨?_, fun hf => (sc_failed s).mpr hf, rfl, rfl⟩
  cases h with
  | inl hc =>
    rw [show should_continue s = "complete" from (sc_complete s).mpr hc]
    decide
  | inr hf =>
    rw [show should_continue s = "failed" from (sc_failed s).mpr hf]
    decide

/-- Witness for C5 on a COMPLETED state. -/
theorem C5_terminal_stops_accumulation_witness :
    (sW5.status = GoalStatus.completed ∨ sW5.status = GoalStatus.failed) ∧
    should_continue sW5 ≠ "continue" :=
  ⟨Or.inl rfl, (C5_terminal_stops_accumulation sW5 (Or.inl rfl)).1⟩

/-- C5 counterexample: the round reaches the terminal status COMPLETED with
results [rec1, rec2], and the subsequently executed finalization changes the
results sequence to [rec1] — terminal status does not freeze `results`. -/
theorem C5_counterexample :
    (validate_results (execute_search envTriv sC5)).status = GoalStatus.completed ∧
    (validate_results (execute_search envTriv sC5)).current_results = [rec1, rec2] ∧
    (graphLoop envTriv 5 sC5).current_results = [rec1] := by
  refine ⟨rfl, rfl, rfl⟩

/-- C6: the post-round decision follows the priority order — enough results
gives COMPLETED, otherwise iteration at the ceiling gives FAILED, otherwise the
state is untouched — and the decision is a pure, idempotent function of the
state: validating an already validated snapshot changes nothing. -/
theorem C6_validate_priority (s : AgentState) :
    ((s.current_results.length : Int) ≥ s.target_count →
      validate_results s = { s with status := GoalStatus.completed }) ∧
    ((s.current_results.length : Int) < s.target_count →
      s.iteration_count ≥ s.max_iterations →
      validate_results s = { s with status := GoalStatus.failed }) ∧
    ((s.current_results.length : Int) < s.target_count →
      s.iteration_count < s.max_iterations →
      validate_results s = s) ∧
    validate_results (validate_results s) = validate_results s := by
  refine ⟨fun h => validate_completed h,
    fun h1 h2 => validate_failed (by omega) h2,
    fun h1 h2 => validate_id (by omega) (by omega), ?_⟩
  by_cases h1 : (s.current_results.length : Int) ≥ s.target_count
  · rw [validate_completed h1]
    exact validate_completed h1
  · by_cases h2 : s.iteration_count ≥ s.max_iterations
    · rw [validate_failed h1 h2]
      exact validate_failed h1 h2
    · rw [validate_id h1 h2]
      exact validate_id h1 h2

/-- Witness for C6: empty results at the iteration ceiling validate to FAILED. -/
theorem C6_validate_priority_witness :
    (sW6.current_results.length : Int) < sW6.target_count ∧
    sW6.iteration_count ≥ sW6.max_iterations ∧
    validate_results sW6 = { sW6 with status := GoalStatus.failed } :=
  ⟨by decide, by decide, (C6_validate_priority sW6).2.1 (by decide) (by decide)⟩

/-- C7: with a non-negative target_count, finalization truncates results to the
first target_count entries in discovery order; when validation ends a round
with FAILED, the loop returns that state unchanged, leaving results exactly as
accumulated; and in the scenario with 12 unique email-bearing records and
target_count = 10, validation gives COMPLETED and the final results are
exactly the first 10 accumulated records. -/
theorem C7_finalize_truncates (s : AgentState) (env : Env) (n : Nat)
    (ht : 0 ≤ s.target_count) :
    (finalize_results s).current_results = s.current_results.take s.target_count.toNat ∧
    ((validate_results (execute_search env s)).status = GoalStatus.failed →
      graphLoop env (n + 1) s = validate_results (execute_search env s)) ∧
    (validate_results sC7).status = GoalStatus.completed ∧
    (finalize_results (validate_results sC7)).current_results.length = 10 ∧
    (finalize_results (validate_results sC7)).current_results
      = sC7.current_results.take 10 := by
  refine ⟨?_, ?_, rfl, rfl, rfl⟩
  · show pySliceStop s.current_results s.target_count = _
    unfold pySliceStop
    rw [if_pos ht]
  · intro hf
    have hne : should_continue (validate_results (execute_search env s)) ≠ "complete" := by
      intro hcc
      have hco := (sc_complete _).mp hcc
      rw [hco] at hf
      exact GoalStatus.noConfusion hf
    simp only [graphLoop]
    rw [if_neg hne, if_pos ((sc_failed _).mpr hf)]

/-- Witness for C7 on the non-negative target_count of sC5. -/
theorem C7_finalize_truncates_witness :
    (0 : Int) ≤ sC5.target_count ∧
    (finalize_results sC5).current_results
      = sC5.current_results.take sC5.target_count.toNat :=
  ⟨by decide, (C7_finalize_truncates sC5 envTriv 0 (by decide)).1⟩

/-- C8 (amended): when the post-round validation ends with FAILED, the graph
goes straight to END without running finalization, so no final report message
is produced — the terminal state (status FAILED, partial results, iteration
count) is simply returned, and nothing raises; the report is built and
appended to messages only on the COMPLETED path. -/
theorem C8_no_report_on_failed (env : Env) (n : Nat) (s : AgentState) :
    ((validate_results (execute_search env s)).status = GoalStatus.failed →
      graphLoop env (n + 1) s = validate_results (execute_search env s)) ∧
    ((validate_results (execute_search env s)).status = GoalStatus.completed →
      (graphLoop env (n + 1) s).messages
        = (validate_results (execute_search env s)).messages ++
            [buildFinalMessage
              { validate_results (execute_search env s) with
                current_results :=
                  pySliceStop (validate_results (execute_search env s)).current_results
                    (validate_results (execute_search env s)).target_count }]) := by
  constructor
  · intro hf
    have hne : should_continue (validate_results (execute_search env s)) ≠ "complete" := by
      intro hcc
      have hco := (sc_complete _).mp hcc
      rw [hco] at hf
      exact GoalStatus.noConfusion hf
    simp only [graphLoop]
    rw [if_neg hne, if_pos ((sc_failed _).mpr hf)]
  · intro hc
    simp only [graphLoop]
    rw [if_pos ((sc_complete _).mpr hc)]
    rfl

/-- Witness for C8: a state that validates to FAILED after one round. -/
theorem C8_no_report_on_failed_witness :
    (validate_results (execute_search envTriv sW8)).status = GoalStatus.failed ∧
    graphLoop envTriv 1 sW8 = validate_results (execute_search envTriv sW8) :=
  ⟨rfl, (C8_no_report_on_failed envTriv 0 sW8).1 rfl⟩

/-- C8 counterexample: a complete run that ends FAILED produces no final report
at all — the message list still holds only the initial goal text, while the
claim says a report stating FAILED with counts is produced. -/
theorem C8_counterexample :
    (run_agent envTriv "collect email contacts" 1).status = GoalStatus.failed ∧
    (run_agent envTriv "collect email contacts" 1).messages = ["collect email contacts"] ∧
    (run_agent envTriv "collect email contacts" 1).iteration_count = 1 := by
  refine ⟨rfl, rfl, rfl⟩

/-- C9 (amended): on a parsed planner response, new queries are merged with
duplicate suppression preserving order of first appearance (the ledger stays
duplicate-free and keeps its existing order, and every proposed query ends up
present); refinement suppresses duplicates on both its parsed and fallback
paths; but the fallback path of initial strategy generation appends its
category-templated queries unconditionally, without duplicate suppression. -/
theorem C9_strategy_merge (s : AgentState) (qs : List String)
    (hnd : s.search_queries.Nodup) :
    ((generate_search_strategy s (some qs)).search_queries.Nodup ∧
      (∃ t, (generate_search_strategy s (some qs)).search_queries
        = s.search_queries ++ t) ∧
      ∀ q ∈ qs, q ∈ (generate_search_strategy s (some qs)).search_queries) ∧
    (strContains (strLower s.goal) "website" = false →
      strContains (strLower s.goal) "email" = true →
      (generate_search_strategy s none).search_queries
        = s.search_queries ++ ["recruiter email contacts",
            "HR manager email directory", "talent acquisition email list"]) ∧
    (refine_strategy s (some qs)).search_queries.Nodup ∧
    (refine_strategy s none).search_queries.Nodup := by
  refine ⟨⟨mergeQueries_nodup qs _ hnd, mergeQueries_suffix qs _, mergeQueries_mem qs _⟩,
    ?_, mergeQueries_nodup qs _ hnd, mergeQueries_nodup _ _ hnd⟩
  intro hw he
  unfold generate_search_strategy
  rw [if_neg (by rw [hw]; exact Bool.false_ne_true), if_pos he]

/-- Witness for C9 on an empty ledger and a duplicated proposal list. -/
theorem C9_strategy_merge_witness :
    sW9.search_queries.Nodup ∧
    (generate_search_strategy sW9 (some ["a", "b", "a"])).search_queries.Nodup :=
  ⟨by decide, (C9_strategy_merge sW9 ["a", "b", "a"] (by decide)).1.1⟩

/-- C9 counterexample: with an email goal whose first fallback query is already
in the ledger, the fallback path of strategy generation appends it again — the
resulting ledger contains a duplicate, refuting duplicate suppression on the
fallback path. -/
theorem C9_counterexample :
    (generate_search_strategy sC9 none).search_queries
      = ["recruiter email contacts", "recruiter email contacts",
         "HR manager email directory", "talent acquisition email list"] ∧
    ¬ (generate_search_strategy sC9 none).search_queries.Nodup := by
  exact ⟨rfl, by decide⟩

/-- C10: goal analysis stores the parsed quantity as target_count without any
validation, and whenever that quantity q is ≤ 0, any state carrying it — even
with an empty results list — is immediately validated to COMPLETED. -/
theorem C10_quantity_unvalidated (s : AgentState) (a : AnalysisResponse) (q : Int)
    (hq : a.quantity = some q) :
    (analyze_goal s (some a)).target_count = q ∧
    (q ≤ 0 → ∀ s2 : AgentState, s2.target_count = q → s2.current_results = [] →
      (validate_results s2).status = GoalStatus.completed) := by
  constructor
  · show a.quantity.getD 10 = q
    rw [hq]
    rfl
  · intro hq0 s2 ht hr
    have hge : (s2.current_results.length : Int) ≥ s2.target_count := by
      rw [ht, hr]
      show ((0 : Nat) : Int) ≥ q
      omega
    rw [validate_completed hge]

/-- Witness for C10 with quantity 0 and an empty results list. -/
theorem C10_quantity_unvalidated_witness :
    aW10.quantity = some 0 ∧
    (analyze_goal sW10 (some aW10)).target_count = 0 ∧
    (validate_results sW10b).status = GoalStatus.completed :=
  ⟨rfl, (C10_quantity_unvalidated sW10 aW10 0 rfl).1,
    (C10_quantity_unvalidated sW10 aW10 0 rfl).2 (by decide) sW10b rfl rfl⟩
